import Mathlib

/-!
Shallow embedding of the bpwordzee word-search client (`BpWordzeeClient` in
the frontend script) and of its service worker (`sw.js`), together with
theorems settling the specification claims about validation, ranking and
the offline caching layer.

Scores travel as JS numbers; the ranking pipeline only compares and copies
them, so they are embedded as `Int`.  The round parameter is compared with
`typeof ronda !== 'number'` and then ordered against 1 and 5, so it is
embedded as `Option ℚ` (`none` = not a number, `some q` = the numeric
value, possibly fractional).
-/

namespace BpWordzee

/-- A scored word as built by `procesarPalabras`: `{ palabra, puntos }`. -/
structure Palabra where
  palabra : String
  puntos : Int
deriving DecidableEq, Repr, Inhabited

/-- The JS comparator `(a, b) => b.puntos - a.puntos` places `a` no later
than `b` exactly when `b.puntos ≤ a.puntos` (descending by score). -/
def scoreGE (a b : Palabra) : Prop := b.puntos ≤ a.puntos

instance : DecidableRel scoreGE :=
  fun a b => inferInstanceAs (Decidable (b.puntos ≤ a.puntos))

instance : IsTotal Palabra scoreGE := ⟨fun a b => le_total b.puntos a.puntos⟩

instance : IsTrans Palabra scoreGE := ⟨fun _ _ _ h1 h2 => le_trans h2 h1⟩

/-- Model of `palabras.sort((a, b) => b.puntos - a.puntos)`: JS
`Array.prototype.sort` is required to be stable, so it is modelled by the
stable insertion sort. -/
def sortDesc (l : List Palabra) : List Palabra := l.insertionSort scoreGE

/-- The grouping object `{3: [], 4: [], 5: [], 6: [], 7: []}` of
`procesarPalabras`. -/
structure Buckets where
  l3 : List Palabra
  l4 : List Palabra
  l5 : List Palabra
  l6 : List Palabra
  l7 : List Palabra
deriving DecidableEq, Repr

def Buckets.empty : Buckets := ⟨[], [], [], [], []⟩

/-- One execution of `palabrasPorLongitud[longitud].push({palabra, puntos})`:
when the length is outside 3..7 the lookup yields `undefined` and the
`.push` throws a `TypeError`; that abrupt termination is modelled by
`none`. -/
def pushPalabra (b : Buckets) (p : Palabra) : Option Buckets :=
  match p.palabra.length with
  | 3 => some { b with l3 := b.l3 ++ [p] }
  | 4 => some { b with l4 := b.l4 ++ [p] }
  | 5 => some { b with l5 := b.l5 ++ [p] }
  | 6 => some { b with l6 := b.l6 ++ [p] }
  | 7 => some { b with l7 := b.l7 ++ [p] }
  | _ => none

/-- The `for (const item of palabras)` grouping loop of `procesarPalabras`. -/
def agrupar : Buckets → List Palabra → Option Buckets
  | b, [] => some b
  | b, p :: rest =>
    match pushPalabra b p with
    | some b2 => agrupar b2 rest
    | none => none

/-- One `estadisticas["longitud_" + longitud]` record. -/
structure Estadistica where
  total : Nat
  mejores : Nat
  puntos_max : Int
  puntos_min : Int
deriving DecidableEq, Repr

/-- The object returned by `ordenarYLimitarResultados` (its `data` payload,
plus the constant `success` flag).  `estadisticas` is kept as an association
list from the length `N` of `longitud_N` to the record, in insertion
order. -/
structure Resultado where
  success : Bool
  palabras : List Palabra
  total : Nat
  total_antes_filtro : Nat
  estadisticas : List (Nat × Estadistica)
deriving DecidableEq, Repr

/-- Model of `Object.entries(palabrasPorLongitud)`: integer-like keys
enumerate in ascending order, so the loop sees the buckets for lengths
3,4,5,6,7 in that order. -/
def Buckets.entries (b : Buckets) : List (Nat × List Palabra) :=
  [(3, b.l3), (4, b.l4), (5, b.l5), (6, b.l6), (7, b.l7)]

/-- Bucket lookup by word length (meaningful for lengths 3..7). -/
def Buckets.get (b : Buckets) (n : Nat) : List Palabra :=
  match n with
  | 3 => b.l3
  | 4 => b.l4
  | 5 => b.l5
  | 6 => b.l6
  | 7 => b.l7
  | _ => []

/-- Statistics record computed for one non-empty bucket, read off the
in-place-sorted bucket: `palabras.length`, `top10.length`,
`palabras[0].puntos` and `palabras[palabras.length - 1].puntos`. -/
def mkStat (palabras : List Palabra) : Estadistica :=
  let sorted := sortDesc palabras
  { total := palabras.length
    mejores := (sorted.take 10).length
    puntos_max := (sorted.headD default).puntos
    puntos_min := (sorted.getLastD default).puntos }

/-- The `for (const [longitud, palabras] of Object.entries(...))` loop of
`ordenarYLimitarResultados`: empty buckets are skipped; a non-empty bucket
is sorted descending in place, its first 10 entries are appended to the
accumulated word list, its pre-truncation size is added to `totalPalabras`,
and statistics are read off the sorted full bucket (`palabras[0]` and
`palabras[palabras.length - 1]` after the in-place sort).  The structural
recursion accumulates the same three sequences as the left-to-right JS
loop. -/
def procesarEntradas : List (Nat × List Palabra) → List Palabra × Nat × List (Nat × Estadistica)
  | [] => ([], 0, [])
  | (longitud, palabras) :: rest =>
    let acc := procesarEntradas rest
    if palabras.isEmpty then acc
    else
      let sorted := sortDesc palabras
      let top10 := sorted.take 10
      (top10 ++ acc.1, palabras.length + acc.2.1, (longitud, mkStat palabras) :: acc.2.2)

/-- Model of `ordenarYLimitarResultados`: processes the buckets, re-sorts the
combined list descending by score, and assembles the result object. -/
def ordenarYLimitarResultados (b : Buckets) : Resultado :=
  let acc := procesarEntradas b.entries
  let ordenadas := sortDesc acc.1
  { success := true
    palabras := ordenadas
    total := ordenadas.length
    total_antes_filtro := acc.2.1
    estadisticas := acc.2.2 }

/-- The ranking pipeline applied to already-shaped `{palabra, puntos}`
records: the grouping loop followed by `ordenarYLimitarResultados`; `none`
models the `TypeError` thrown on a word length without a bucket. -/
def rankWords (ws : List Palabra) : Option Resultado :=
  (agrupar Buckets.empty ws).map ordenarYLimitarResultados

/-- Model of `procesarPalabras`: each incoming item is a single-key object
with the word as key and the score as value (`palabra = Object.keys(item)[0]`,
`puntos = item[palabra]`), modelled as a `(String × Int)` pair. -/
def procesarPalabras (items : List (String × Int)) : Option Resultado :=
  rankWords (items.map fun it => ⟨it.1, it.2⟩)

/-- Concatenation of the truncated buckets in length order 3..7, i.e. the
contents of `palabrasEncontradas` just before the final global sort. -/
def flatTop (b : Buckets) : List Palabra :=
  (b.entries.map fun e => (sortDesc e.2).take 10).flatten

/-- The round argument as seen by `typeof ronda !== 'number'`: either a JS
number (`some q`) or any non-number value (`none`). -/
abbrev Ronda := Option ℚ

def mensajeFila (i longitud : Nat) : String :=
  "La fila " ++ toString i ++ " debe tener " ++ toString longitud ++ " elementos"

/-- The row-checking loop `for (let i = 0; i < puntosExtra.length; i++)` of
`validarParametros`, returning the first error message, if any. -/
def validarFilas : List (List String) → Nat → Option String
  | [], _ => none
  | fila :: rest, i =>
    if fila.length ≠ i + 3 then some (mensajeFila i (i + 3))
    else validarFilas rest (i + 1)

/-- Model of `validarParametros(letrasDisponibles, puntosExtra, ronda)`; a
thrown `Error` is modelled as `Except.error` with the thrown message. -/
def validarParametros (letrasDisponibles : List String)
    (puntosExtra : List (List String)) (ronda : Ronda) : Except String Unit :=
  if letrasDisponibles.length ≠ 7 then
    .error "El array de letras disponibles debe tener exactamente 7 letras"
  else if puntosExtra.length ≠ 5 then
    .error "El array de puntos extra debe tener 5 filas (para longitudes 3-7)"
  else
    match validarFilas puntosExtra 0 with
    | some msg => .error msg
    | none =>
      match ronda with
      | none => .error "La ronda debe ser un número entre 1 y 5"
      | some q =>
        if q < 1 ∨ 5 < q then .error "La ronda debe ser un número entre 1 y 5"
        else .ok ()

/-- The query content of the GET request built by `obtenerPalabrasAPI`. -/
structure ApiRequest where
  letras : List String
  puntos_extra : List (List String)
  ronda : Ronda
deriving DecidableEq

/-- Outcome of `fetch(url)` plus `response.json()` at the API endpoint:
the transport fails, or the body is not JSON, or a parsed envelope
`{success, mensaje?, data.palabras}` arrives. -/
inductive ApiAnswer where
  | networkError
  | invalidJson
  | envelope (success : Bool) (mensaje : Option String) (palabras : List (String × Int))
deriving DecidableEq

/-- The response handling of `obtenerPalabrasAPI`: a transport error is
rethrown as-is, a JSON `SyntaxError` becomes the generic message, a
non-success envelope throws its `mensaje` (or the default), and a success
envelope yields `data.palabras`. -/
def obtenerPalabrasAPI (answer : ApiAnswer) : Except String (List (String × Int)) :=
  match answer with
  | .networkError => .error "Failed to fetch"
  | .invalidJson => .error "El servidor no respondió correctamente. Inténtalo de nuevo."
  | .envelope ok mensaje palabras =>
    if ok then .ok palabras
    else .error (mensaje.getD "No se pudo obtener las palabras del servidor")

/-- Per-letter uppercasing, as in
`letrasDisponibles.map(l => l.toUpperCase())`. -/
def toUpperStr (s : String) : String := ⟨s.data.map Char.toUpper⟩

/-- Model of `buscarPalabras`, with the network modelled as an oracle from
the built request to the API answer.  The first component records the
requests that were actually issued. -/
def buscarPalabras (letrasDisponibles : List String)
    (puntosExtra : List (List String)) (ronda : Ronda)
    (api : ApiRequest → ApiAnswer) : List ApiRequest × Except String Resultado :=
  match validarParametros letrasDisponibles puntosExtra ronda with
  | .error msg => ([], .error msg)
  | .ok _ =>
    let letrasNormalizadas := letrasDisponibles.map toUpperStr
    let req : ApiRequest := ⟨letrasNormalizadas, puntosExtra, ronda⟩
    let res : Except String Resultado :=
      match obtenerPalabrasAPI (api req) with
      | .error msg => .error msg
      | .ok items =>
        match procesarPalabras items with
        | some r => .ok r
        | none => .error "TypeError: Cannot read properties of undefined (reading 'push')"
    ([req], res)

end BpWordzee

namespace SW

def VERSION : String := "20260203-1915"

/-- Primary cache name for an arbitrary version string. -/
def cacheNameOf (version : String) : String := "bpwordzee-" ++ version

/-- External cache name for an arbitrary version string. -/
def cacheNameExternalOf (version : String) : String := "bpwordzee-external-" ++ version

def CACHE_NAME : String := cacheNameOf VERSION

def CACHE_NAME_EXTERNAL : String := cacheNameExternalOf VERSION

def PRECACHE_URLS : List String :=
  ["./", "./index.html", "./front/index.css", "./front/index.js",
   "./front/icons/favicon.ico", "./front/icons/wordzee-32_32.png",
   "./front/icons/wordzee-64_64.jpg", "./front/icons/wordzee-256_256.webp",
   "./front/icons/wordzee-512_512.png", "./front/icons/telegram.png",
   "./front/icons/Facebook_f_logo_2019.svg"]

def EXTERNAL_URLS : List String :=
  ["https://cdn.jsdelivr.net/npm/bootstrap@5.3.8/dist/css/bootstrap.min.css",
   "https://cdn.jsdelivr.net/npm/bootstrap@5.3.8/dist/js/bootstrap.bundle.min.js"]

/-- The parts of an intercepted request the fetch handler inspects:
`url.pathname`, `url.hostname` and `url.origin`. -/
structure Request where
  pathname : String
  hostname : String
  origin : String
deriving DecidableEq

/-- A response body: the synthesized JSON error object, or opaque content. -/
inductive Body where
  | json (success : Bool) (mensaje : String)
  | content (data : String)
deriving DecidableEq

structure Response where
  status : Nat
  statusText : String
  body : Body
deriving DecidableEq

/-- One named cache: request/response pairs in insertion order. -/
abbrev CacheStore := List (Request × Response)

/-- All named caches, in creation order, as enumerated by `caches.keys()`. -/
abbrev CacheState := List (String × CacheStore)

def storeMatch (store : CacheStore) (req : Request) : Option Response :=
  match store with
  | [] => none
  | (r, resp) :: rest => if r = req then some resp else storeMatch rest req

/-- Model of `caches.match(request)`: searches every named cache in order. -/
def cachesMatch (caches : CacheState) (req : Request) : Option Response :=
  match caches with
  | [] => none
  | (_, store) :: rest =>
    match storeMatch store req with
    | some resp => some resp
    | none => cachesMatch rest req

def storePut (store : CacheStore) (req : Request) (resp : Response) : CacheStore :=
  match store with
  | [] => [(req, resp)]
  | (r, old) :: rest =>
    if r = req then (r, resp) :: rest else (r, old) :: storePut rest req resp

/-- Model of `caches.open(name).then(cache => cache.put(request, response))`:
opens (creating if absent) the named cache and overwrites the entry for the
request. -/
def cachePut (caches : CacheState) (name : String) (req : Request) (resp : Response) : CacheState :=
  match caches with
  | [] => [(name, [(req, resp)])]
  | (n, store) :: rest =>
    if n = name then (n, storePut store req resp) :: rest
    else (n, store) :: cachePut rest name req resp

/-- Model of `url.pathname.includes('/api/') || url.hostname.includes('api.')`. -/
def isApiRequest (req : Request) : Bool :=
  decide ("/api/".toList <:+: req.pathname.toList) ||
    decide ("api.".toList <:+: req.hostname.toList)

def mensajeOffline : String :=
  "No se pudo conectar con el servidor. Verifica tu conexión a internet."

/-- What one run of the fetch handler produces: the response delivered to
the page (`none` = the promise given to `respondWith` rejected, i.e. a
transport error reaches the caller), the cache state afterwards, and how
many network fetches were issued. -/
structure FetchOutcome where
  response : Option Response
  caches : CacheState
  networkRequests : Nat
deriving DecidableEq

/-- The `fetch` event listener of `sw.js`.  The network is an oracle:
`network req = none` models a rejected `fetch(request)`. -/
def handleFetch (locationOrigin : String) (caches : CacheState)
    (network : Request → Option Response) (req : Request) : FetchOutcome :=
  if isApiRequest req then
    match network req with
    | some resp => ⟨some resp, caches, 1⟩
    | none => ⟨some ⟨200, "OK", Body.json false mensajeOffline⟩, caches, 1⟩
  else if req.origin ≠ locationOrigin then
    match cachesMatch caches req with
    | some cached => ⟨some cached, caches, 0⟩
    | none =>
      match network req with
      | some resp =>
        if resp.status = 200 then
          ⟨some resp, cachePut caches CACHE_NAME_EXTERNAL req resp, 1⟩
        else ⟨some resp, caches, 1⟩
      | none => ⟨none, caches, 1⟩
  else
    match cachesMatch caches req with
    | some cached => ⟨some cached, caches, 0⟩
    | none =>
      match network req with
      | some resp => ⟨some resp, caches, 1⟩
      | none => ⟨none, caches, 1⟩

/-- The cache names deleted by the `activate` handler out of
`caches.keys()`: `keys.filter(key => key !== CACHE_NAME && key !== CACHE_NAME_EXTERNAL)`. -/
def activateDeleted (version : String) (keys : List String) : List String :=
  keys.filter fun key =>
    decide (key ≠ cacheNameOf version ∧ key ≠ cacheNameExternalOf version)

/-- The cache names still present after the `activate` sweep: every
enumerated store except the deleted ones. -/
def activateRemaining (version : String) (keys : List String) : List String :=
  keys.filter fun key =>
    decide (key = cacheNameOf version ∨ key = cacheNameExternalOf version)

/-- Effects a service-worker event handler can issue. -/
inductive Command where
  | waitUntilPrecache (primary : List String) (external : List String)
  | skipWaiting
  | claimClients
deriving DecidableEq

/-- The `install` event listener: precache both manifests (the external one
best-effort) and call `self.skipWaiting()` unconditionally. -/
def installHandler (_event : Unit) : List Command :=
  [Command.waitUntilPrecache PRECACHE_URLS EXTERNAL_URLS, Command.skipWaiting]

/-- The `message` event listener: `skipWaiting` exactly on
`{type: "SKIP_WAITING"}`, nothing otherwise (`event.data?.type`). -/
def messageHandler (data : Option String) : List Command :=
  match data with
  | none => []
  | some t => if t = "SKIP_WAITING" then [Command.skipWaiting] else []

/-- The two lifecycle stations a freshly installed worker can sit at. -/
inductive Phase where
  | waiting
  | activating
deriving DecidableEq

/-- Service-worker lifecycle rule: once install completes, the new worker
enters the waiting state unless `skipWaiting()` was called, in which case
it proceeds straight to activation. -/
def phaseAfterInstall (ran : List Command) : Phase :=
  if Command.skipWaiting ∈ ran then .activating else .waiting

end SW

namespace SW

theorem storeMatch_storePut (store : CacheStore) (req : Request) (resp : Response) :
    storeMatch (storePut store req resp) req = some resp := by
  induction store with
  | nil => simp [storePut, storeMatch]
  | cons hd tl ih =>
    obtain ⟨r, old⟩ := hd
    by_cases h : r = req
    · simp [storePut, storeMatch, h]
    · simp [storePut, storeMatch, h, ih]

theorem cachesMatch_cachePut_self (caches : CacheState) (name : String)
    (req : Request) (resp : Response) (h : cachesMatch caches req = none) :
    cachesMatch (cachePut caches name req resp) req = some resp := by
  induction caches with
  | nil => simp [cachePut, cachesMatch, storeMatch]
  | cons hd tl ih =>
    obtain ⟨n, store⟩ := hd
    simp only [cachesMatch] at h
    cases hsm : storeMatch store req with
    | some r => rw [hsm] at h; exact absurd h (by simp)
    | none =>
      rw [hsm] at h
      by_cases hn : n = name
      · subst hn
        simp [cachePut, cachesMatch, storeMatch_storePut]
      · simp [cachePut, cachesMatch, hn, hsm, ih h]

end SW

/-- C7: for an intercepted request whose URL path contains the API marker
segment or whose host is recognizable as an API host, the fetch handler
always goes to the network exactly once, leaves every cache store
untouched, passes a network response through unchanged, and on network
failure delivers (instead of a thrown transport error) a synthesized
response with transport status 200 whose body is
`{success: false, mensaje: <non-empty offline message>}`. -/
theorem c7_api_always_network (locationOrigin : String) (caches : SW.CacheState)
    (network : SW.Request → Option SW.Response) (req : SW.Request)
    (hapi : SW.isApiRequest req = true) :
    (SW.handleFetch locationOrigin caches network req).caches = caches ∧
    (SW.handleFetch locationOrigin caches network req).networkRequests = 1 ∧
    (∀ resp, network req = some resp →
      (SW.handleFetch locationOrigin caches network req).response = some resp) ∧
    (network req = none →
      (SW.handleFetch locationOrigin caches network req).response =
        some ⟨200, "OK", SW.Body.json false SW.mensajeOffline⟩ ∧
      SW.mensajeOffline ≠ "") := by
  cases hnet : network req with
  | some resp =>
    refine ⟨?_, ?_, ?_, ?_⟩ <;> simp [SW.handleFetch, hapi, hnet]
  | none =>
    refine ⟨?_, ?_, ?_, ?_⟩ <;>
      simp [SW.handleFetch, hapi, hnet, SW.mensajeOffline]

/-- Witness for C7 at a concrete API request with a failing network. -/
theorem c7_witness :
    (SW.handleFetch "http://127.0.0.1"
        [] (fun _ => none) ⟨"/api/bpwordzee", "127.0.0.1", "http://127.0.0.1"⟩).response =
      some ⟨200, "OK", SW.Body.json false SW.mensajeOffline⟩ ∧
    SW.mensajeOffline ≠ "" :=
  (c7_api_always_network "http://127.0.0.1" [] (fun _ => none)
    ⟨"/api/bpwordzee", "127.0.0.1", "http://127.0.0.1"⟩ (by decide)).2.2.2 rfl

/-- C8: for an intercepted cross-origin non-API request, a cached entry is
served with no network fetch; otherwise exactly one network fetch is
issued, and exactly for a status-200 response a copy is stored into the
external store before the response is returned, so that a subsequent
identical request is served from the cache with no network fetch; a
non-200 response is returned without touching the cache. -/
theorem c8_cross_origin_cache_first (locationOrigin : String) (caches : SW.CacheState)
    (network : SW.Request → Option SW.Response) (req : SW.Request)
    (hapi : SW.isApiRequest req = false) (hor : req.origin ≠ locationOrigin) :
    (∀ c, SW.cachesMatch caches req = some c →
      SW.handleFetch locationOrigin caches network req = ⟨some c, caches, 0⟩) ∧
    (SW.cachesMatch caches req = none →
      (SW.handleFetch locationOrigin caches network req).networkRequests = 1 ∧
      (∀ resp, network req = some resp → resp.status = 200 →
        SW.handleFetch locationOrigin caches network req =
          ⟨some resp, SW.cachePut caches SW.CACHE_NAME_EXTERNAL req resp, 1⟩ ∧
        ∀ network2,
          SW.handleFetch locationOrigin
              (SW.cachePut caches SW.CACHE_NAME_EXTERNAL req resp) network2 req =
            ⟨some resp, SW.cachePut caches SW.CACHE_NAME_EXTERNAL req resp, 0⟩) ∧
      (∀ resp, network req = some resp → resp.status ≠ 200 →
        SW.handleFetch locationOrigin caches network req = ⟨some resp, caches, 1⟩)) := by
  constructor
  · intro c hc
    simp [SW.handleFetch, hapi, hor, hc]
  · intro hmiss
    refine ⟨?_, ?_, ?_⟩
    · cases hnet : network req with
      | some resp =>
        by_cases hs : resp.status = 200 <;>
          simp [SW.handleFetch, hapi, hor, hmiss, hnet, hs]
      | none => simp [SW.handleFetch, hapi, hor, hmiss, hnet]
    · intro resp hnet hs
      have hhit := SW.cachesMatch_cachePut_self caches SW.CACHE_NAME_EXTERNAL req resp hmiss
      constructor
      · simp [SW.handleFetch, hapi, hor, hmiss, hnet, hs]
      · intro network2
        simp [SW.handleFetch, hapi, hor, hhit]
    · intro resp hnet hs
      simp [SW.handleFetch, hapi, hor, hmiss, hnet, hs]

/-- Witness for C8 at a concrete cross-origin request: cache miss, a 200
response is fetched once and stored, and the identical request then hits
the cache without the network. -/
theorem c8_witness :
    SW.handleFetch "http://127.0.0.1" []
        (fun _ => some ⟨200, "OK", SW.Body.content "css"⟩)
        ⟨"/npm/bootstrap.min.css", "cdn.jsdelivr.net", "https://cdn.jsdelivr.net"⟩ =
      ⟨some ⟨200, "OK", SW.Body.content "css"⟩,
        SW.cachePut [] SW.CACHE_NAME_EXTERNAL
          ⟨"/npm/bootstrap.min.css", "cdn.jsdelivr.net", "https://cdn.jsdelivr.net"⟩
          ⟨200, "OK", SW.Body.content "css"⟩, 1⟩ ∧
    SW.handleFetch "http://127.0.0.1"
        (SW.cachePut [] SW.CACHE_NAME_EXTERNAL
          ⟨"/npm/bootstrap.min.css", "cdn.jsdelivr.net", "https://cdn.jsdelivr.net"⟩
          ⟨200, "OK", SW.Body.content "css"⟩)
        (fun _ => none)
        ⟨"/npm/bootstrap.min.css", "cdn.jsdelivr.net", "https://cdn.jsdelivr.net"⟩ =
      ⟨some ⟨200, "OK", SW.Body.content "css"⟩,
        SW.cachePut [] SW.CACHE_NAME_EXTERNAL
          ⟨"/npm/bootstrap.min.css", "cdn.jsdelivr.net", "https://cdn.jsdelivr.net"⟩
          ⟨200, "OK", SW.Body.content "css"⟩, 0⟩ := by
  have h := (c8_cross_origin_cache_first "http://127.0.0.1" []
    (fun _ => some ⟨200, "OK", SW.Body.content "css"⟩)
    ⟨"/npm/bootstrap.min.css", "cdn.jsdelivr.net", "https://cdn.jsdelivr.net"⟩
    (by decide) (by decide)).2 rfl
  have h2 := h.2.1 ⟨200, "OK", SW.Body.content "css"⟩ rfl rfl
  exact ⟨h2.1, h2.2 (fun _ => none)⟩

/-- C9: the activate sweep deletes a pre-existing store exactly when its
name is neither the current primary store name nor the current external
store name; in particular, activating version v2 after an install with
version v1 deletes both v1-named stores and keeps both v2-named stores. -/
theorem c9_activate_sweep (version : String) (keys : List String) :
    (∀ key, key ∈ keys →
      ((key ∈ SW.activateDeleted version keys ↔
        (key ≠ SW.cacheNameOf version ∧ key ≠ SW.cacheNameExternalOf version)) ∧
       (key ∈ SW.activateRemaining version keys ↔
        (key = SW.cacheNameOf version ∨ key = SW.cacheNameExternalOf version)) ∧
       (key ∈ SW.activateRemaining version keys ↔
        key ∉ SW.activateDeleted version keys))) ∧
    SW.activateDeleted "v2"
        [SW.cacheNameOf "v1", SW.cacheNameExternalOf "v1",
         SW.cacheNameOf "v2", SW.cacheNameExternalOf "v2"] =
      [SW.cacheNameOf "v1", SW.cacheNameExternalOf "v1"] ∧
    SW.activateRemaining "v2"
        [SW.cacheNameOf "v1", SW.cacheNameExternalOf "v1",
         SW.cacheNameOf "v2", SW.cacheNameExternalOf "v2"] =
      [SW.cacheNameOf "v2", SW.cacheNameExternalOf "v2"] := by
  refine ⟨?_, by decide, by decide⟩
  intro key hk
  refine ⟨?_, ?_, ?_⟩
  · simp [SW.activateDeleted, List.mem_filter, hk]
  · simp [SW.activateRemaining, List.mem_filter, hk]
  · simp [SW.activateDeleted, SW.activateRemaining, List.mem_filter, hk]
    tauto

/-- Witness for C9: the old primary store is deleted and the new primary
store survives at the concrete version pair v1/v2. -/
theorem c9_witness :
    SW.cacheNameOf "v1" ∈ SW.activateDeleted "v2"
      [SW.cacheNameOf "v1", SW.cacheNameExternalOf "v1",
       SW.cacheNameOf "v2", SW.cacheNameExternalOf "v2"] ∧
    SW.cacheNameOf "v2" ∈ SW.activateRemaining "v2"
      [SW.cacheNameOf "v1", SW.cacheNameExternalOf "v1",
       SW.cacheNameOf "v2", SW.cacheNameExternalOf "v2"] := by
  have h := (c9_activate_sweep "v2"
    [SW.cacheNameOf "v1", SW.cacheNameExternalOf "v1",
     SW.cacheNameOf "v2", SW.cacheNameExternalOf "v2"]).1
  exact ⟨((h (SW.cacheNameOf "v1") (by decide)).1).mpr (by decide),
    ((h (SW.cacheNameOf "v2") (by decide)).2.1).mpr (by decide)⟩

/-- C10: the install handler calls skipWaiting unconditionally on every
install, so after install the worker proceeds straight to activation and
never sits in the waiting state, whether or not any SKIP_WAITING control
message is ever received. -/
theorem c10_install_skipwaiting :
    ∀ e : Unit, SW.Command.skipWaiting ∈ SW.installHandler e ∧
      SW.phaseAfterInstall (SW.installHandler e) = SW.Phase.activating ∧
      ∀ msgs : List (Option String),
        SW.phaseAfterInstall
            (SW.installHandler e ++ msgs.flatMap SW.messageHandler) =
          SW.Phase.activating := by
  intro e
  have hmem : SW.Command.skipWaiting ∈ SW.installHandler e := by
    simp [SW.installHandler]
  refine ⟨hmem, ?_, ?_⟩
  · simp [SW.phaseAfterInstall, hmem]
  · intro msgs
    simp [SW.phaseAfterInstall, List.mem_append, hmem]

namespace BpWordzee

theorem sortDesc_sorted (l : List Palabra) : List.Sorted scoreGE (sortDesc l) :=
  List.sorted_insertionSort scoreGE l

theorem sortDesc_perm (l : List Palabra) : List.Perm (sortDesc l) l :=
  List.perm_insertionSort scoreGE l

theorem sortDesc_eq_of_sorted {l : List Palabra} (h : List.Sorted scoreGE l) :
    sortDesc l = l := h.insertionSort_eq

theorem orderedInsert_front {x : Palabra} {l : List Palabra}
    (h : ∀ y ∈ l, scoreGE x y) : List.orderedInsert scoreGE x l = x :: l := by
  cases l with
  | nil => rfl
  | cons b t => simp [List.orderedInsert, h b (by simp)]

theorem filter_orderedInsert (p : Palabra → Bool) (x : Palabra) :
    ∀ l : List Palabra, List.Sorted scoreGE l →
      (List.orderedInsert scoreGE x l).filter p =
        if p x then List.orderedInsert scoreGE x (l.filter p) else l.filter p := by
  intro l
  induction l with
  | nil => intro _; by_cases hx : p x <;> simp [List.orderedInsert, hx]
  | cons b t ih =>
    intro hbt
    by_cases hxb : scoreGE x b
    · rw [List.orderedInsert_of_le _ _ hxb]
      have hfront : ∀ y ∈ List.filter p (b :: t), scoreGE x y := by
        intro y hy
        have hyin : y ∈ b :: t := List.mem_of_mem_filter hy
        rcases List.mem_cons.mp hyin with rfl | hyt
        · exact hxb
        · exact IsTrans.trans x b y hxb (List.rel_of_sorted_cons hbt y hyt)
      by_cases hx : p x
      · rw [if_pos hx, orderedInsert_front hfront]
        simp [List.filter_cons, hx]
      · rw [if_neg hx]
        simp [List.filter_cons, hx]
    · rw [List.orderedInsert]
      rw [if_neg hxb]
      have ihres := ih hbt.of_cons
      by_cases hx : p x <;> by_cases hb : p b <;>
        simp [List.filter_cons, hx, hb, ihres, List.orderedInsert, hxb]

theorem filter_sortDesc (p : Palabra → Bool) (l : List Palabra) :
    (sortDesc l).filter p = sortDesc (l.filter p) := by
  induction l with
  | nil => rfl
  | cons a t ih =>
    have h1 : sortDesc (a :: t) = List.orderedInsert scoreGE a (sortDesc t) := rfl
    rw [h1, filter_orderedInsert p a _ (sortDesc_sorted t), ih]
    by_cases hx : p a
    · rw [if_pos hx]
      have h2 : List.filter p (a :: t) = a :: List.filter p t := by
        simp [List.filter_cons, hx]
      rw [h2]
      rfl
    · rw [if_neg hx]
      have h2 : List.filter p (a :: t) = List.filter p t := by
        simp [List.filter_cons, hx]
      rw [h2]

end BpWordzee

namespace BpWordzee

theorem pushPalabra_isSome (b : Buckets) (p : Palabra) :
    (pushPalabra b p).isSome ↔ (3 ≤ p.palabra.length ∧ p.palabra.length ≤ 7) := by
  unfold pushPalabra
  split <;> simp_all
  omega

theorem pushPalabra_get {b b2 : Buckets} {p : Palabra}
    (h : pushPalabra b p = some b2) (n : Nat) (h3 : 3 ≤ n) (h7 : n ≤ 7) :
    b2.get n = if p.palabra.length = n then b.get n ++ [p] else b.get n := by
  unfold pushPalabra at h
  split at h <;> first
    | (injection h with h; subst h; interval_cases n <;> simp_all [Buckets.get])
    | (exact absurd h (by simp))

theorem agrupar_isSome (ws : List Palabra) : ∀ b : Buckets,
    (agrupar b ws).isSome ↔ ∀ p ∈ ws, 3 ≤ p.palabra.length ∧ p.palabra.length ≤ 7 := by
  induction ws with
  | nil => intro b; simp [agrupar]
  | cons p rest ih =>
    intro b
    cases hp : pushPalabra b p with
    | none =>
      have hlen := pushPalabra_isSome b p
      rw [hp] at hlen
      simp only [Option.isSome_none, Bool.false_eq_true, false_iff] at hlen
      simp only [agrupar, hp]
      constructor
      · intro hfalse; exact absurd hfalse (by simp)
      · intro hall; exact absurd (hall p (by simp)) hlen
    | some b2 =>
      have hlen := pushPalabra_isSome b p
      rw [hp] at hlen
      simp only [Option.isSome_some, true_iff] at hlen
      simp only [agrupar, hp, ih b2]
      constructor
      · intro hall q hq
        rcases List.mem_cons.mp hq with rfl | hq2
        · exact hlen
        · exact hall q hq2
      · intro hall q hq
        exact hall q (List.mem_cons_of_mem p hq)

theorem agrupar_get (ws : List Palabra) : ∀ (b b' : Buckets),
    agrupar b ws = some b' → ∀ n, 3 ≤ n → n ≤ 7 →
      b'.get n = b.get n ++ ws.filter (fun p => decide (p.palabra.length = n)) := by
  induction ws with
  | nil =>
    intro b b' h n h3 h7
    simp only [agrupar, Option.some_inj] at h
    subst h
    simp
  | cons p rest ih =>
    intro b b' h n h3 h7
    cases hp : pushPalabra b p with
    | none =>
      simp only [agrupar, hp] at h
      exact absurd h (by simp)
    | some b2 =>
      simp only [agrupar, hp] at h
      have hg := ih b2 b' h n h3 h7
      rw [hg, pushPalabra_get hp n h3 h7]
      by_cases hlen : p.palabra.length = n <;>
        simp [List.filter_cons, hlen]

theorem Buckets.empty_get (n : Nat) : Buckets.empty.get n = [] := by
  unfold Buckets.empty Buckets.get
  split <;> rfl

theorem agrupar_good {ws : List Palabra} {b : Buckets}
    (h : agrupar Buckets.empty ws = some b) (n : Nat) (h3 : 3 ≤ n) (h7 : n ≤ 7) :
    ∀ p ∈ b.get n, p.palabra.length = n := by
  intro p hp
  rw [agrupar_get ws Buckets.empty b h n h3 h7, Buckets.empty_get, List.nil_append] at hp
  simpa using (List.mem_filter.mp hp).2

end BpWordzee

namespace BpWordzee

theorem sortDesc_nil : sortDesc [] = [] := rfl

theorem procesarEntradas_fst (es : List (Nat × List Palabra)) :
    (procesarEntradas es).1 = (es.map fun e => (sortDesc e.2).take 10).flatten := by
  induction es with
  | nil => rfl
  | cons e rest ih =>
    obtain ⟨n, l⟩ := e
    by_cases hl : l.isEmpty
    · have hnil : l = [] := by simpa using hl
      subst hnil
      simp [procesarEntradas, ih, sortDesc_nil]
    · simp [procesarEntradas, hl, ih]

theorem procesarEntradas_total (es : List (Nat × List Palabra)) :
    (procesarEntradas es).2.1 = (es.map fun e => e.2.length).sum := by
  induction es with
  | nil => rfl
  | cons e rest ih =>
    obtain ⟨n, l⟩ := e
    by_cases hl : l.isEmpty
    · have hnil : l = [] := by simpa using hl
      subst hnil
      simp [procesarEntradas, ih]
    · simp [procesarEntradas, hl, ih]

theorem procesarEntradas_stats (es : List (Nat × List Palabra)) :
    (procesarEntradas es).2.2 =
      (es.filter fun e => !e.2.isEmpty).map fun e => (e.1, mkStat e.2) := by
  induction es with
  | nil => rfl
  | cons e rest ih =>
    obtain ⟨n, l⟩ := e
    by_cases hl : l.isEmpty
    · simp [procesarEntradas, hl, ih, List.filter_cons]
    · simp [procesarEntradas, hl, ih, List.filter_cons]

theorem ordenar_palabras (b : Buckets) :
    (ordenarYLimitarResultados b).palabras = sortDesc (flatTop b) := by
  simp [ordenarYLimitarResultados, flatTop, procesarEntradas_fst]

theorem ordenar_total (b : Buckets) :
    (ordenarYLimitarResultados b).total = (sortDesc (flatTop b)).length := by
  simp [ordenarYLimitarResultados, flatTop, procesarEntradas_fst]

theorem ordenar_taf (b : Buckets) :
    (ordenarYLimitarResultados b).total_antes_filtro =
      (b.entries.map fun e => e.2.length).sum := by
  simp [ordenarYLimitarResultados, procesarEntradas_total]

theorem ordenar_stats (b : Buckets) :
    (ordenarYLimitarResultados b).estadisticas =
      (b.entries.filter fun e => !e.2.isEmpty).map fun e => (e.1, mkStat e.2) := by
  simp [ordenarYLimitarResultados, procesarEntradas_stats]

end BpWordzee

namespace BpWordzee

theorem mem_flatTop {b : Buckets} {x : Palabra} (hx : x ∈ flatTop b) :
    ∃ n, 3 ≤ n ∧ n ≤ 7 ∧ x ∈ b.get n := by
  simp only [flatTop, List.mem_flatten, List.mem_map] at hx
  obtain ⟨l, ⟨e, he, rfl⟩, hxl⟩ := hx
  have hxe : x ∈ e.2 := (sortDesc_perm e.2).mem_iff.mp (List.mem_of_mem_take hxl)
  simp only [Buckets.entries, List.mem_cons, List.not_mem_nil, or_false] at he
  rcases he with rfl | rfl | rfl | rfl | rfl
  · exact ⟨3, by norm_num, by norm_num, hxe⟩
  · exact ⟨4, by norm_num, by norm_num, hxe⟩
  · exact ⟨5, by norm_num, by norm_num, hxe⟩
  · exact ⟨6, by norm_num, by norm_num, hxe⟩
  · exact ⟨7, by norm_num, by norm_num, hxe⟩

end BpWordzee

/-- C1 counterexample: on the spec's example candidates
`[{A:5},{AB:7},{AAA:3},{AAA:9}]` the ranking operation does not drop the
1- and 2-letter entries silently; the grouping loop looks up a bucket for
length 1, gets `undefined`, and the `.push` throws, so no result is
produced at all (modelled by `none`), contradicting the claimed result
`[AAA:9, AAA:3]`. -/
theorem c1_counterexample :
    BpWordzee.procesarPalabras [("A", 5), ("AB", 7), ("AAA", 3), ("AAA", 9)] = none := by
  decide

/-- C1 (amended): the ranking operation crashes (throws a `TypeError`) as
soon as some word's length is outside 3..7 — such words are not dropped
silently; it returns a result exactly when every word's length is in 3..7,
and then the result contains only words of lengths 3..7. -/
theorem c1_amended (items : List (String × Int)) :
    ((BpWordzee.procesarPalabras items).isSome ↔
      ∀ it ∈ items, 3 ≤ it.1.length ∧ it.1.length ≤ 7) ∧
    ∀ r, BpWordzee.procesarPalabras items = some r →
      ∀ p ∈ r.palabras, 3 ≤ p.palabra.length ∧ p.palabra.length ≤ 7 := by
  have hmap : ∀ o : Option BpWordzee.Buckets,
      (Option.map BpWordzee.ordenarYLimitarResultados o).isSome = o.isSome := by
    intro o; cases o <;> rfl
  constructor
  · rw [BpWordzee.procesarPalabras, BpWordzee.rankWords]
    rw [hmap]
    rw [BpWordzee.agrupar_isSome]
    constructor
    · intro h it hit
      exact h ⟨it.1, it.2⟩ (List.mem_map_of_mem _ hit)
    · intro h p hp
      obtain ⟨it, hit, rfl⟩ := List.mem_map.mp hp
      exact h it hit
  · intro r hr p hp
    rw [BpWordzee.procesarPalabras, BpWordzee.rankWords] at hr
    cases hb : BpWordzee.agrupar BpWordzee.Buckets.empty
        (items.map fun it => ⟨it.1, it.2⟩) with
    | none => rw [hb] at hr; cases hr
    | some b =>
      rw [hb] at hr
      simp only [Option.map_some', Option.some_inj] at hr
      subst hr
      rw [BpWordzee.ordenar_palabras] at hp
      have hp2 : p ∈ BpWordzee.flatTop b := (BpWordzee.sortDesc_perm _).mem_iff.mp hp
      obtain ⟨n, h3, h7, hpn⟩ := BpWordzee.mem_flatTop hp2
      have := BpWordzee.agrupar_good hb n h3 h7 p hpn
      omega

/-- Witness for C1 at a concrete well-formed input: a result is produced
and all returned words have lengths in 3..7. -/
theorem c1_witness :
    (BpWordzee.procesarPalabras [("AAA", 3), ("CASA", 9)]).isSome ∧
    ∀ p ∈ (⟨true, [⟨"CASA", 9⟩, ⟨"AAA", 3⟩], 2, 2,
        [(3, ⟨1, 1, 3, 3⟩), (4, ⟨1, 1, 9, 9⟩)]⟩ : BpWordzee.Resultado).palabras,
      3 ≤ p.palabra.length ∧ p.palabra.length ≤ 7 :=
  ⟨(c1_amended [("AAA", 3), ("CASA", 9)]).1.mpr (by decide),
   (c1_amended [("AAA", 3), ("CASA", 9)]).2 _ (by decide)⟩

/-- C5: for every input that groups successfully (in particular the empty
input), the returned word list is a permutation of the concatenation of
the per-length truncated buckets (length order 3..7) that is sorted fully
descending by score across all lengths combined, `total` equals the length
of that final combined sequence, and `total_antes_filtro` equals the sum
of all buckets' pre-truncation counts. -/
theorem c5_global_resort (ws : List BpWordzee.Palabra) (b : BpWordzee.Buckets)
    (hb : BpWordzee.agrupar BpWordzee.Buckets.empty ws = some b) :
    BpWordzee.rankWords ws = some (BpWordzee.ordenarYLimitarResultados b) ∧
    List.Perm (BpWordzee.ordenarYLimitarResultados b).palabras (BpWordzee.flatTop b) ∧
    List.Sorted BpWordzee.scoreGE (BpWordzee.ordenarYLimitarResultados b).palabras ∧
    (BpWordzee.ordenarYLimitarResultados b).total =
      (BpWordzee.ordenarYLimitarResultados b).palabras.length ∧
    (BpWordzee.ordenarYLimitarResultados b).total_antes_filtro =
      (b.entries.map fun e => e.2.length).sum := by
  refine ⟨by simp [BpWordzee.rankWords, hb], ?_, ?_, ?_, ?_⟩
  · rw [BpWordzee.ordenar_palabras]
    exact BpWordzee.sortDesc_perm _
  · rw [BpWordzee.ordenar_palabras]
    exact BpWordzee.sortDesc_sorted _
  · rw [BpWordzee.ordenar_total, BpWordzee.ordenar_palabras]
  · exact BpWordzee.ordenar_taf b

/-- Witness for C5 at a concrete input. -/
theorem c5_witness :
    BpWordzee.rankWords [⟨"AAA", 3⟩] =
      some (BpWordzee.ordenarYLimitarResultados ⟨[⟨"AAA", 3⟩], [], [], [], []⟩) :=
  (c5_global_resort [⟨"AAA", 3⟩] ⟨[⟨"AAA", 3⟩], [], [], [], []⟩ (by decide)).1

namespace BpWordzee

theorem stats_lookup (b : Buckets) (n : Nat) (h3 : 3 ≤ n) (h7 : n ≤ 7) :
    (ordenarYLimitarResultados b).estadisticas.lookup n =
      if (b.get n).isEmpty then none else some (mkStat (b.get n)) := by
  rw [ordenar_stats]
  interval_cases n <;>
    · simp only [Buckets.entries, Buckets.get]
      by_cases h3e : b.l3.isEmpty <;> by_cases h4e : b.l4.isEmpty <;>
        by_cases h5e : b.l5.isEmpty <;> by_cases h6e : b.l6.isEmpty <;>
          by_cases h7e : b.l7.isEmpty <;>
            simp [List.filter_cons, h3e, h4e, h5e, h6e, h7e, List.lookup]

end BpWordzee

/-- C4: for every input grouping and every length 3..7, the bucket that is
empty before truncation has no `longitud_N` entry at all, and a non-empty
bucket's entry has `total` = the pre-truncation count, `mejores` = the
post-truncation count (at most 10), `puntos_max` = the score of the first
entry of the descending-sorted pre-truncation bucket, and `puntos_min` =
the score of the last entry of the descending-sorted pre-truncation
bucket. -/
theorem c4_per_length_stats (b : BpWordzee.Buckets) (n : Nat) (h3 : 3 ≤ n) (h7 : n ≤ 7) :
    ((BpWordzee.ordenarYLimitarResultados b).estadisticas.lookup n = none ↔
      b.get n = []) ∧
    ∀ st, (BpWordzee.ordenarYLimitarResultados b).estadisticas.lookup n = some st →
      st.total = (b.get n).length ∧
      st.mejores = min 10 (b.get n).length ∧
      st.mejores ≤ 10 ∧
      (∀ p, (BpWordzee.sortDesc (b.get n)).head? = some p → st.puntos_max = p.puntos) ∧
      (∀ p, (BpWordzee.sortDesc (b.get n)).getLast? = some p → st.puntos_min = p.puntos) := by
  rw [BpWordzee.stats_lookup b n h3 h7]
  by_cases he : (b.get n).isEmpty
  · rw [if_pos he]
    refine ⟨by simpa using he, ?_⟩
    intro st hst
    cases hst
  · rw [if_neg he]
    constructor
    · simp only [List.isEmpty_iff] at he
      simp [he]
    · intro st hst
      rw [Option.some_inj] at hst
      subst hst
      have hlen : (BpWordzee.sortDesc (b.get n)).length = (b.get n).length :=
        List.length_insertionSort _ _
      refine ⟨rfl, ?_, ?_, ?_, ?_⟩
      · show ((BpWordzee.sortDesc (b.get n)).take 10).length = _
        rw [List.length_take, hlen]
      · show ((BpWordzee.sortDesc (b.get n)).take 10).length ≤ 10
        rw [List.length_take]
        exact Nat.min_le_left _ _
      · intro p hp
        show ((BpWordzee.sortDesc (b.get n)).headD default).puntos = p.puntos
        cases hsd : BpWordzee.sortDesc (b.get n) with
        | nil => rw [hsd] at hp; cases hp
        | cons a t =>
          rw [hsd] at hp
          simp only [List.head?_cons, Option.some_inj] at hp
          subst hp
          rfl
      · intro p hp
        show ((BpWordzee.sortDesc (b.get n)).getLastD default).puntos = p.puntos
        rw [List.getLastD_eq_getLast?, hp]
        rfl

/-- Witness for C4 at a concrete bucket assignment: the empty length-4
bucket has no stats entry, and the length-3 entry records the
pre-truncation count. -/
theorem c4_witness :
    (BpWordzee.ordenarYLimitarResultados
      ⟨[⟨"AAA", 3⟩], [], [], [], []⟩).estadisticas.lookup 4 = none ∧
    (⟨1, 1, 3, 3⟩ : BpWordzee.Estadistica).total =
      ((⟨[⟨"AAA", 3⟩], [], [], [], []⟩ : BpWordzee.Buckets).get 3).length :=
  ⟨(c4_per_length_stats ⟨[⟨"AAA", 3⟩], [], [], [], []⟩ 4 (by norm_num) (by norm_num)).1.mpr
      (by decide),
   ((c4_per_length_stats ⟨[⟨"AAA", 3⟩], [], [], [], []⟩ 3 (by norm_num) (by norm_num)).2
      ⟨1, 1, 3, 3⟩ (by decide)).1⟩

namespace BpWordzee

theorem flatTop_eq (b : Buckets) :
    flatTop b = (sortDesc b.l3).take 10 ++ ((sortDesc b.l4).take 10 ++
      ((sortDesc b.l5).take 10 ++ ((sortDesc b.l6).take 10 ++
        (sortDesc b.l7).take 10))) := by
  simp [flatTop, Buckets.entries]

theorem sortDesc_take_sorted (l : List Palabra) (k : Nat) :
    List.Sorted scoreGE ((sortDesc l).take k) :=
  (sortDesc_sorted l).sublist (List.take_sublist k _)

theorem head?_mem_self {l : List Palabra} {p : Palabra} (h : l.head? = some p) : p ∈ l := by
  cases l with
  | nil => cases h
  | cons a t =>
    simp only [List.head?_cons, Option.some_inj] at h
    subst h
    exact List.mem_cons_self a t

theorem getLast?_mem_self {l : List Palabra} {p : Palabra} (h : l.getLast? = some p) :
    p ∈ l := by
  obtain ⟨hne, heq⟩ := List.mem_getLast?_eq_getLast (Option.mem_def.mpr h)
  rw [heq]
  exact List.getLast_mem hne

theorem sorted_head_max {l : List Palabra} (h : List.Sorted scoreGE l)
    {p : Palabra} (hp : l.head? = some p) : ∀ q ∈ l, q.puntos ≤ p.puntos := by
  cases l with
  | nil => cases hp
  | cons a t =>
    simp only [List.head?_cons, Option.some_inj] at hp
    subst hp
    intro q hq
    rcases List.mem_cons.mp hq with rfl | hqt
    · exact le_refl _
    · exact List.rel_of_sorted_cons h q hqt

theorem sorted_getLast_min {l : List Palabra} (h : List.Sorted scoreGE l)
    {p : Palabra} (hp : l.getLast? = some p) : ∀ q ∈ l, p.puntos ≤ q.puntos := by
  induction l with
  | nil => cases hp
  | cons a t ih =>
    cases t with
    | nil =>
      simp only [List.getLast?_singleton, Option.some_inj] at hp
      subst hp
      intro q hq
      simp only [List.mem_singleton] at hq
      subst hq
      exact le_refl _
    | cons c t2 =>
      have hp2 : (c :: t2).getLast? = some p := by
        rw [← hp]
        rfl
      intro q hq
      rcases List.mem_cons.mp hq with rfl | hqt
      · have hpmem : p ∈ c :: t2 := getLast?_mem_self hp2
        exact List.rel_of_sorted_cons h p hpmem
      · exact ih h.of_cons hp2 q hqt

end BpWordzee

/-- Fifteen length-4 words with pairwise distinct scores 1..15, used to
settle C3. -/
def C3ejemplo : List BpWordzee.Palabra :=
  [⟨"ABCD", 1⟩, ⟨"ABCD", 2⟩, ⟨"ABCD", 3⟩, ⟨"ABCD", 4⟩, ⟨"ABCD", 5⟩,
   ⟨"ABCD", 6⟩, ⟨"ABCD", 7⟩, ⟨"ABCD", 8⟩, ⟨"ABCD", 9⟩, ⟨"ABCD", 10⟩,
   ⟨"ABCD", 11⟩, ⟨"ABCD", 12⟩, ⟨"ABCD", 13⟩, ⟨"ABCD", 14⟩, ⟨"ABCD", 15⟩]

/-- C3 counterexample: for the bucket of 15 length-4 words with distinct
scores 1..15, the code records `puntos_min = 1` (the minimum of the whole
pre-truncation bucket, i.e. the 15th-highest score), not the 10th-highest
score 6 the claim states. -/
theorem c3_counterexample :
    (BpWordzee.rankWords C3ejemplo).map (fun r => r.estadisticas.lookup 4) =
      some (some ⟨15, 10, 15, 1⟩) ∧
    (BpWordzee.rankWords C3ejemplo).map (fun r => r.estadisticas.lookup 4) ≠
      some (some ⟨15, 10, 15, 6⟩) := by
  constructor
  · decide
  · decide

/-- C3 (amended): for a bucket of exactly 15 length-4 words with pairwise
distinct scores, rank keeps exactly the 10 highest-scoring words (the
returned list is the first 10 entries of the descending-sorted bucket, and
every dropped word scores strictly below every kept word), and the
length-4 statistics entry is `{total: 15, mejores: 10, puntos_max: the
maximum score, puntos_min: the minimum score of the whole pre-truncation
bucket}` — the minimum, not the 10th-highest score. -/
theorem c3_amended (ws : List BpWordzee.Palabra) (b : BpWordzee.Buckets)
    (hlen : ws.length = 15)
    (h4 : ∀ p ∈ ws, p.palabra.length = 4)
    (hdist : ws.Pairwise fun p q => p.puntos ≠ q.puntos)
    (hb : BpWordzee.agrupar BpWordzee.Buckets.empty ws = some b) :
    (BpWordzee.ordenarYLimitarResultados b).palabras = (BpWordzee.sortDesc ws).take 10 ∧
    (BpWordzee.ordenarYLimitarResultados b).palabras.length = 10 ∧
    (∀ p ∈ (BpWordzee.ordenarYLimitarResultados b).palabras, ∀ q ∈ ws,
      q ∉ (BpWordzee.ordenarYLimitarResultados b).palabras → q.puntos < p.puntos) ∧
    ((BpWordzee.ordenarYLimitarResultados b).estadisticas.lookup 4).isSome ∧
    ∀ st, (BpWordzee.ordenarYLimitarResultados b).estadisticas.lookup 4 = some st →
      st.total = 15 ∧ st.mejores = 10 ∧
      st.puntos_max ∈ ws.map BpWordzee.Palabra.puntos ∧
      (∀ q ∈ ws, q.puntos ≤ st.puntos_max) ∧
      st.puntos_min ∈ ws.map BpWordzee.Palabra.puntos ∧
      (∀ q ∈ ws, st.puntos_min ≤ q.puntos) := by
  have hget4 : b.get 4 = ws := by
    rw [BpWordzee.agrupar_get ws BpWordzee.Buckets.empty b hb 4 (by norm_num) (by norm_num),
      BpWordzee.Buckets.empty_get, List.nil_append]
    apply List.filter_eq_self.mpr
    intro p hp
    simp [h4 p hp]
  have hgetn : ∀ n, 3 ≤ n → n ≤ 7 → n ≠ 4 → b.get n = [] := by
    intro n hn3 hn7 hn4
    rw [BpWordzee.agrupar_get ws BpWordzee.Buckets.empty b hb n hn3 hn7,
      BpWordzee.Buckets.empty_get, List.nil_append]
    rw [List.filter_eq_nil_iff]
    intro p hp
    simp [h4 p hp]
    omega
  have hflat : BpWordzee.flatTop b = (BpWordzee.sortDesc ws).take 10 := by
    rw [BpWordzee.flatTop_eq]
    rw [show b.l3 = [] from hgetn 3 (by norm_num) (by norm_num) (by norm_num),
      show b.l5 = [] from hgetn 5 (by norm_num) (by norm_num) (by norm_num),
      show b.l6 = [] from hgetn 6 (by norm_num) (by norm_num) (by norm_num),
      show b.l7 = [] from hgetn 7 (by norm_num) (by norm_num) (by norm_num),
      show b.l4 = ws from hget4]
    simp [BpWordzee.sortDesc_nil]
  have hpal : (BpWordzee.ordenarYLimitarResultados b).palabras =
      (BpWordzee.sortDesc ws).take 10 := by
    rw [BpWordzee.ordenar_palabras, hflat,
      BpWordzee.sortDesc_eq_of_sorted (BpWordzee.sortDesc_take_sorted ws 10)]
  have hsortlen : (BpWordzee.sortDesc ws).length = 15 := by
    rw [BpWordzee.sortDesc, List.length_insertionSort, hlen]
  have hlen10 : (BpWordzee.ordenarYLimitarResultados b).palabras.length = 10 := by
    rw [hpal, List.length_take, hsortlen]
    rfl
  have hwsne : ws ≠ [] := by
    intro h
    rw [h] at hlen
    cases hlen
  refine ⟨hpal, hlen10, ?_, ?_, ?_⟩
  · intro p hp q hq hqnot
    rw [hpal] at hp hqnot
    have hq2 : q ∈ BpWordzee.sortDesc ws := (BpWordzee.sortDesc_perm ws).mem_iff.mpr hq
    rw [← List.take_append_drop 10 (BpWordzee.sortDesc ws)] at hq2
    have hqdrop : q ∈ (BpWordzee.sortDesc ws).drop 10 := by
      rcases List.mem_append.mp hq2 with h | h
      · exact absurd h hqnot
      · exact h
    have hle : BpWordzee.scoreGE p q :=
      (BpWordzee.sortDesc_sorted ws).rel_of_mem_take_of_mem_drop hp hqdrop
    have hdist2 : (BpWordzee.sortDesc ws).Pairwise fun r s => r.puntos ≠ s.puntos :=
      ((BpWordzee.sortDesc_perm ws).pairwise_iff fun hab => Ne.symm hab).mpr hdist
    rw [← List.take_append_drop 10 (BpWordzee.sortDesc ws)] at hdist2
    have hne : p.puntos ≠ q.puntos := (List.pairwise_append.mp hdist2).2.2 p hp q hqdrop
    exact lt_of_le_of_ne hle (Ne.symm hne)
  · rw [BpWordzee.stats_lookup b 4 (by norm_num) (by norm_num), hget4]
    simp [List.isEmpty_iff, hwsne]
  · intro st hst
    rw [BpWordzee.stats_lookup b 4 (by norm_num) (by norm_num), hget4,
      if_neg (by simp [List.isEmpty_iff, hwsne])] at hst
    rw [Option.some_inj] at hst
    subst hst
    have hsne : BpWordzee.sortDesc ws ≠ [] := by
      intro h
      rw [h] at hsortlen
      cases hsortlen
    obtain ⟨a, t, hat⟩ := List.exists_cons_of_ne_nil hsne
    have hhead : (BpWordzee.sortDesc ws).head? = some a := by rw [hat]; rfl
    have hlast : (BpWordzee.sortDesc ws).getLast? =
        some ((BpWordzee.sortDesc ws).getLast hsne) :=
      List.getLast?_eq_getLast_of_ne_nil hsne
    have hmax_eq : (BpWordzee.mkStat ws).puntos_max = a.puntos := by
      show ((BpWordzee.sortDesc ws).headD default).puntos = a.puntos
      rw [hat]
      rfl
    have hmin_eq : (BpWordzee.mkStat ws).puntos_min =
        ((BpWordzee.sortDesc ws).getLast hsne).puntos := by
      show ((BpWordzee.sortDesc ws).getLastD default).puntos = _
      rw [List.getLastD_eq_getLast?, hlast]
      rfl
    refine ⟨hlen ▸ rfl, ?_, ?_, ?_, ?_, ?_⟩
    · show ((BpWordzee.sortDesc ws).take 10).length = 10
      rw [List.length_take, hsortlen]
      rfl
    · rw [hmax_eq]
      exact List.mem_map_of_mem _ ((BpWordzee.sortDesc_perm ws).mem_iff.mp
        (BpWordzee.head?_mem_self hhead))
    · intro q hq
      rw [hmax_eq]
      exact BpWordzee.sorted_head_max (BpWordzee.sortDesc_sorted ws) hhead q
        ((BpWordzee.sortDesc_perm ws).mem_iff.mpr hq)
    · rw [hmin_eq]
      exact List.mem_map_of_mem _ ((BpWordzee.sortDesc_perm ws).mem_iff.mp
        (BpWordzee.getLast?_mem_self hlast))
    · intro q hq
      rw [hmin_eq]
      exact BpWordzee.sorted_getLast_min (BpWordzee.sortDesc_sorted ws) hlast q
        ((BpWordzee.sortDesc_perm ws).mem_iff.mpr hq)

/-- Witness for C3 at the concrete 15-word bucket with scores 1..15. -/
theorem c3_witness :
    (BpWordzee.ordenarYLimitarResultados ⟨[], C3ejemplo, [], [], []⟩).palabras =
      (BpWordzee.sortDesc C3ejemplo).take 10 :=
  (c3_amended C3ejemplo ⟨[], C3ejemplo, [], [], []⟩
    (by decide) (by decide) (by decide) (by decide)).1

namespace BpWordzee

theorem validarFilas_eq_none (pe : List (List String)) : ∀ k,
    validarFilas pe k = none ↔
      ∀ i fila, pe[i]? = some fila → fila.length = k + i + 3 := by
  induction pe with
  | nil =>
    intro k
    simp [validarFilas]
  | cons fila rest ih =>
    intro k
    by_cases hf : fila.length = k + 3
    · rw [validarFilas, if_neg (by omega), ih (k + 1)]
      constructor
      · intro h i f hif
        cases i with
        | zero =>
          simp only [List.getElem?_cons_zero, Option.some_inj] at hif
          subst hif
          omega
        | succ j =>
          have := h j f (by simpa using hif)
          omega
      · intro h i f hif
        have := h (i + 1) f (by simpa using hif)
        omega
    · constructor
      · intro hcontra
        rw [validarFilas, if_pos (by omega)] at hcontra
        cases hcontra
      · intro h
        exact absurd (by simpa using h 0 fila (by simp)) hf

theorem validarParametros_ok_iff (letras : List String) (pe : List (List String))
    (ronda : Ronda) :
    validarParametros letras pe ronda = .ok () ↔
      (letras.length = 7 ∧ pe.length = 5 ∧
        (∀ i fila, pe[i]? = some fila → fila.length = i + 3) ∧
        ∃ q, ronda = some q ∧ 1 ≤ q ∧ q ≤ 5) := by
  unfold validarParametros
  by_cases h1 : letras.length = 7
  · rw [if_neg (by omega)]
    by_cases h2 : pe.length = 5
    · rw [if_neg (by omega)]
      cases hfl : validarFilas pe 0 with
      | some msg =>
        simp only [false_iff]
        constructor
        · intro h
          cases h
        · intro ⟨_, _, hrows, _⟩
          have : validarFilas pe 0 = none := by
            rw [validarFilas_eq_none pe 0]
            intro i f hif
            have := hrows i f hif
            omega
          rw [hfl] at this
          cases this
      | none =>
        cases ronda with
        | none =>
          constructor
          · intro h
            cases h
          · intro ⟨_, _, _, q, hq, _⟩
            cases hq
        | some q =>
          dsimp only
          by_cases hq : q < 1 ∨ 5 < q
          · rw [if_pos hq]
            constructor
            · intro h
              cases h
            · intro ⟨_, _, _, q2, hq2, hq21, hq25⟩
              rw [Option.some_inj] at hq2
              subst hq2
              rcases hq with h | h
              · exact absurd hq21 (not_le.mpr h)
              · exact absurd hq25 (not_le.mpr h)
          · rw [if_neg hq]
            push_neg at hq
            constructor
            · intro _
              refine ⟨h1, h2, ?_, q, rfl, hq.1, hq.2⟩
              intro i f hif
              have := (validarFilas_eq_none pe 0).mp hfl i f hif
              omega
            · intro _
              rfl
    · rw [if_pos (by omega)]
      constructor
      · intro h
        cases h
      · intro ⟨_, hc, _⟩
        exact absurd hc h2
  · rw [if_pos (by omega)]
    constructor
    · intro h
      cases h
    · intro ⟨hc, _⟩
      exact absurd hc h1

theorem buscarPalabras_requests (letras : List String) (pe : List (List String))
    (ronda : Ronda) (api : ApiRequest → ApiAnswer) :
    (buscarPalabras letras pe ronda api).1 =
      match validarParametros letras pe ronda with
      | .error _ => []
      | .ok _ => [⟨letras.map toUpperStr, pe, ronda⟩] := by
  unfold buscarPalabras
  cases validarParametros letras pe ronda <;> rfl

end BpWordzee

/-- C2 counterexample: with 7 letters, a well-formed 5-row bonus table and
the non-integer round 5/2 (strictly between the integers 2 and 3, hence not
an integer in [1,5]), validation succeeds instead of failing — integrality
of the round is never checked. -/
theorem c2_counterexample :
    BpWordzee.validarParametros ["a", "b", "c", "d", "e", "f", "g"]
        [["", "", ""], ["", "", "", ""], ["", "", "", "", ""],
         ["", "", "", "", "", ""], ["", "", "", "", "", "", ""]]
        (some (5 / 2 : ℚ)) = .ok () ∧
    (2 : ℚ) < 5 / 2 ∧ (5 / 2 : ℚ) < 3 := by
  refine ⟨?_, by norm_num, by norm_num⟩
  unfold BpWordzee.validarParametros
  norm_num [BpWordzee.validarFilas]

/-- C2 (amended): validation fails (throws) exactly when the letters
argument is not a sequence of exactly 7 elements, or the bonus table is
not a sequence of exactly 5 rows, or some row i (0-indexed) does not have
exactly i+3 elements, or the round is not a JS number in [1,5] — the
number need not be an integer: round=0, round=6 and non-number rounds
fail, but a non-integer number inside [1,5] (e.g. 2.5) passes, since
integrality is never checked.  On success the pipeline issues exactly one
request carrying the uppercased letters; for invalid input no network
request is ever issued. -/
theorem c2_amended (letras : List String) (pe : List (List String))
    (ronda : BpWordzee.Ronda) (api : BpWordzee.ApiRequest → BpWordzee.ApiAnswer) :
    (BpWordzee.validarParametros letras pe ronda = .ok () ↔
      (letras.length = 7 ∧ pe.length = 5 ∧
        (∀ i fila, pe[i]? = some fila → fila.length = i + 3) ∧
        ∃ q, ronda = some q ∧ 1 ≤ q ∧ q ≤ 5)) ∧
    ((BpWordzee.buscarPalabras letras pe ronda api).1 = [] ↔
      ¬ BpWordzee.validarParametros letras pe ronda = .ok ()) ∧
    (BpWordzee.validarParametros letras pe ronda = .ok () →
      (BpWordzee.buscarPalabras letras pe ronda api).1 =
        [⟨letras.map BpWordzee.toUpperStr, pe, ronda⟩]) := by
  refine ⟨BpWordzee.validarParametros_ok_iff letras pe ronda, ?_, ?_⟩
  · rw [BpWordzee.buscarPalabras_requests]
    cases hv : BpWordzee.validarParametros letras pe ronda with
    | error msg => simp
    | ok u =>
      cases u
      simp
  · intro hok
    rw [BpWordzee.buscarPalabras_requests, hok]

/-- Witness for C2 at a concrete valid input: exactly one request is
issued and it carries the uppercased letters. -/
theorem c2_witness :
    (BpWordzee.buscarPalabras ["a", "b", "c", "d", "e", "f", "g"]
        [["", "", ""], ["", "", "", ""], ["", "", "", "", ""],
         ["", "", "", "", "", ""], ["", "", "", "", "", "", ""]]
        (some 3) (fun _ => BpWordzee.ApiAnswer.networkError)).1 =
      [⟨["A", "B", "C", "D", "E", "F", "G"],
        [["", "", ""], ["", "", "", ""], ["", "", "", "", ""],
         ["", "", "", "", "", ""], ["", "", "", "", "", "", ""]], some 3⟩] := by
  have hok : BpWordzee.validarParametros ["a", "b", "c", "d", "e", "f", "g"]
      [["", "", ""], ["", "", "", ""], ["", "", "", "", ""],
       ["", "", "", "", "", ""], ["", "", "", "", "", "", ""]] (some 3) = .ok () := by
    unfold BpWordzee.validarParametros
    norm_num [BpWordzee.validarFilas]
  have h := (c2_amended ["a", "b", "c", "d", "e", "f", "g"]
      [["", "", ""], ["", "", "", ""], ["", "", "", "", ""],
       ["", "", "", "", "", ""], ["", "", "", "", "", "", ""]]
      (some 3) (fun _ => BpWordzee.ApiAnswer.networkError)).2.2 hok
  rw [h]
  rfl

namespace BpWordzee

theorem take10_filter_len {l : List Palabra} {m : Nat}
    (hm : ∀ p ∈ l, p.palabra.length = m) (n : Nat) :
    ((sortDesc l).take 10).filter (fun p => decide (p.palabra.length = n)) =
      if m = n then (sortDesc l).take 10 else [] := by
  by_cases hmn : m = n
  · subst hmn
    rw [if_pos rfl]
    apply List.filter_eq_self.mpr
    intro p hp
    have hpl : p ∈ l := (sortDesc_perm l).mem_iff.mp (List.mem_of_mem_take hp)
    simp [hm p hpl]
  · rw [if_neg hmn]
    rw [List.filter_eq_nil_iff]
    intro p hp
    have hpl : p ∈ l := (sortDesc_perm l).mem_iff.mp (List.mem_of_mem_take hp)
    simp only [hm p hpl, decide_eq_true_eq]
    exact hmn

theorem filter_flatTop {ws : List Palabra} {b : Buckets}
    (hb : agrupar Buckets.empty ws = some b) (n : Nat) (h3 : 3 ≤ n) (h7 : n ≤ 7) :
    (flatTop b).filter (fun p => decide (p.palabra.length = n)) =
      (sortDesc (b.get n)).take 10 := by
  have g3 : ∀ p ∈ b.l3, p.palabra.length = 3 := agrupar_good hb 3 (by norm_num) (by norm_num)
  have g4 : ∀ p ∈ b.l4, p.palabra.length = 4 := agrupar_good hb 4 (by norm_num) (by norm_num)
  have g5 : ∀ p ∈ b.l5, p.palabra.length = 5 := agrupar_good hb 5 (by norm_num) (by norm_num)
  have g6 : ∀ p ∈ b.l6, p.palabra.length = 6 := agrupar_good hb 6 (by norm_num) (by norm_num)
  have g7 : ∀ p ∈ b.l7, p.palabra.length = 7 := agrupar_good hb 7 (by norm_num) (by norm_num)
  rw [flatTop_eq]
  rw [List.filter_append, List.filter_append, List.filter_append, List.filter_append]
  rw [take10_filter_len g3 n, take10_filter_len g4 n, take10_filter_len g5 n,
    take10_filter_len g6 n, take10_filter_len g7 n]
  interval_cases n <;> simp [Buckets.get]

end BpWordzee

/-- C6: ranking is idempotent — re-ranking the word list of an
already-ranked result succeeds (every returned word has a bucket), returns
the same word list in the same order, the same `total`, and performs no
truncation at all (`total_antes_filtro` of the re-rank equals its
`total`), because each per-length class of the ranked list is already
descending-sorted and has at most 10 entries, and the stable global
re-sort reproduces the list. -/
theorem c6_idempotent (ws : List BpWordzee.Palabra) (r : BpWordzee.Resultado)
    (hr : BpWordzee.rankWords ws = some r) :
    (BpWordzee.rankWords r.palabras).isSome ∧
    ∀ r2, BpWordzee.rankWords r.palabras = some r2 →
      r2.palabras = r.palabras ∧ r2.total = r.total ∧
      r2.total_antes_filtro = r2.total := by
  cases hb : BpWordzee.agrupar BpWordzee.Buckets.empty ws with
  | none => rw [BpWordzee.rankWords, hb] at hr; cases hr
  | some b =>
    rw [BpWordzee.rankWords, hb, Option.map_some', Option.some_inj] at hr
    subst hr
    have hLval : (BpWordzee.ordenarYLimitarResultados b).palabras =
        BpWordzee.sortDesc (BpWordzee.flatTop b) := BpWordzee.ordenar_palabras b
    have hlen : ∀ p ∈ (BpWordzee.ordenarYLimitarResultados b).palabras,
        3 ≤ p.palabra.length ∧ p.palabra.length ≤ 7 := by
      intro p hp
      rw [hLval] at hp
      obtain ⟨n, h3, h7, hpn⟩ :=
        BpWordzee.mem_flatTop ((BpWordzee.sortDesc_perm _).mem_iff.mp hp)
      have := BpWordzee.agrupar_good hb n h3 h7 p hpn
      omega
    have hsome : (BpWordzee.agrupar BpWordzee.Buckets.empty
        (BpWordzee.ordenarYLimitarResultados b).palabras).isSome :=
      (BpWordzee.agrupar_isSome _ BpWordzee.Buckets.empty).mpr hlen
    obtain ⟨b2, hb2⟩ := Option.isSome_iff_exists.mp hsome
    have hget2 : ∀ n, 3 ≤ n → n ≤ 7 →
        b2.get n = (BpWordzee.sortDesc (b.get n)).take 10 := by
      intro n h3 h7
      rw [BpWordzee.agrupar_get _ BpWordzee.Buckets.empty b2 hb2 n h3 h7,
        BpWordzee.Buckets.empty_get, List.nil_append, hLval,
        BpWordzee.filter_sortDesc, BpWordzee.filter_flatTop hb n h3 h7]
      exact BpWordzee.sortDesc_eq_of_sorted (BpWordzee.sortDesc_take_sorted (b.get n) 10)
    have hcomp : ∀ n, 3 ≤ n → n ≤ 7 →
        (BpWordzee.sortDesc (b2.get n)).take 10 = (BpWordzee.sortDesc (b.get n)).take 10 := by
      intro n h3 h7
      rw [hget2 n h3 h7,
        BpWordzee.sortDesc_eq_of_sorted (BpWordzee.sortDesc_take_sorted (b.get n) 10),
        List.take_take]
      norm_num
    have hflat2 : BpWordzee.flatTop b2 = BpWordzee.flatTop b := by
      rw [BpWordzee.flatTop_eq b2, BpWordzee.flatTop_eq b]
      rw [show BpWordzee.sortDesc b2.l3 = BpWordzee.sortDesc (b2.get 3) from rfl,
        show BpWordzee.sortDesc b2.l4 = BpWordzee.sortDesc (b2.get 4) from rfl,
        show BpWordzee.sortDesc b2.l5 = BpWordzee.sortDesc (b2.get 5) from rfl,
        show BpWordzee.sortDesc b2.l6 = BpWordzee.sortDesc (b2.get 6) from rfl,
        show BpWordzee.sortDesc b2.l7 = BpWordzee.sortDesc (b2.get 7) from rfl,
        hcomp 3 (by norm_num) (by norm_num), hcomp 4 (by norm_num) (by norm_num),
        hcomp 5 (by norm_num) (by norm_num), hcomp 6 (by norm_num) (by norm_num),
        hcomp 7 (by norm_num) (by norm_num)]
      rfl
    constructor
    · rw [BpWordzee.rankWords, hb2]
      rfl
    · intro r2 hr2
      rw [BpWordzee.rankWords, hb2, Option.map_some', Option.some_inj] at hr2
      subst hr2
      refine ⟨?_, ?_, ?_⟩
      · rw [BpWordzee.ordenar_palabras b2, hflat2, ← hLval]
      · rw [BpWordzee.ordenar_total b2, hflat2]
        rw [show (BpWordzee.ordenarYLimitarResultados b).total =
          (BpWordzee.sortDesc (BpWordzee.flatTop b)).length from BpWordzee.ordenar_total b]
      · rw [BpWordzee.ordenar_taf b2, BpWordzee.ordenar_total b2]
        have h1 : (BpWordzee.sortDesc (BpWordzee.flatTop b2)).length =
            (BpWordzee.flatTop b2).length := by
          rw [BpWordzee.sortDesc]
          exact List.length_insertionSort _ _
        have hkeep : ∀ n, 3 ≤ n → n ≤ 7 →
            (BpWordzee.sortDesc (b2.get n)).take 10 = b2.get n := by
          intro n h3 h7
          rw [hget2 n h3 h7,
            BpWordzee.sortDesc_eq_of_sorted (BpWordzee.sortDesc_take_sorted (b.get n) 10),
            List.take_take]
          norm_num
        rw [h1, BpWordzee.flatTop_eq b2,
          show BpWordzee.sortDesc b2.l3 = BpWordzee.sortDesc (b2.get 3) from rfl,
          show BpWordzee.sortDesc b2.l4 = BpWordzee.sortDesc (b2.get 4) from rfl,
          show BpWordzee.sortDesc b2.l5 = BpWordzee.sortDesc (b2.get 5) from rfl,
          show BpWordzee.sortDesc b2.l6 = BpWordzee.sortDesc (b2.get 6) from rfl,
          show BpWordzee.sortDesc b2.l7 = BpWordzee.sortDesc (b2.get 7) from rfl,
          hkeep 3 (by norm_num) (by norm_num), hkeep 4 (by norm_num) (by norm_num),
          hkeep 5 (by norm_num) (by norm_num), hkeep 6 (by norm_num) (by norm_num),
          hkeep 7 (by norm_num) (by norm_num)]
        simp [BpWordzee.Buckets.entries, BpWordzee.Buckets.get]

/-- The ranked result of `rankWords [⟨"AAA",3⟩, ⟨"CASA",9⟩]`, used as the
concrete instance for C6; re-ranking its word list reproduces it. -/
def C6ejemplo : BpWordzee.Resultado :=
  ⟨true, [⟨"CASA", 9⟩, ⟨"AAA", 3⟩], 2, 2,
    [(3, ⟨1, 1, 3, 3⟩), (4, ⟨1, 1, 9, 9⟩)]⟩

/-- Witness for C6: re-ranking the word list of a concrete ranked result
succeeds and changes neither the word list nor the counts. -/
theorem c6_witness :
    (BpWordzee.rankWords C6ejemplo.palabras).isSome ∧
    (C6ejemplo.palabras = C6ejemplo.palabras ∧ C6ejemplo.total = C6ejemplo.total ∧
      C6ejemplo.total_antes_filtro = C6ejemplo.total) :=
  ⟨(c6_idempotent [⟨"AAA", 3⟩, ⟨"CASA", 9⟩] C6ejemplo (by decide)).1,
   (c6_idempotent [⟨"AAA", 3⟩, ⟨"CASA", 9⟩] C6ejemplo (by decide)).2 C6ejemplo (by decide)⟩
